import Mathlib

/-!
Shallow embedding of the schema-inference / relationship-discovery /
recommendation core of the `de-agent` repository
(`backend/app/services/analyzer.py` and `backend/app/services/llm_service.py`),
together with theorems checking the specification's claims about it.

Python dictionaries keyed by strings are embedded as association lists
`List (String × α)`; a dict comprehension `{k: f k for k in keys}` is embedded
by deduplicating `keys` to first occurrences and mapping `f` over the result
(same key set and values as the Python dict).  Python `set(...)` values are
embedded as first-occurrence-deduplicated lists; the iteration order of a
Python set is implementation defined, so the deduplicated order is one
admissible refinement of it and order-independent facts are stated as such.
-/

namespace DEAgent

/-- First-occurrence deduplication with an accumulator of already-seen
elements; `pyDedupAux seen l` keeps each element of `l` that is neither in
`seen` nor earlier in `l`. -/
def pyDedupAux {α : Type} [DecidableEq α] (seen : List α) : List α → List α
  | [] => []
  | x :: xs => if x ∈ seen then pyDedupAux seen xs else x :: pyDedupAux (x :: seen) xs

/-- First-occurrence deduplication of a list: the key sequence of a Python
dict built over the list, and (up to order) the Python `set` of the list. -/
def pyDedup {α : Type} [DecidableEq α] (l : List α) : List α := pyDedupAux [] l

theorem pyDedupAux_mem {α : Type} [DecidableEq α] (seen : List α) (l : List α) (a : α) :
    a ∈ pyDedupAux seen l ↔ a ∈ l ∧ a ∉ seen := by
  induction l generalizing seen with
  | nil => simp [pyDedupAux]
  | cons x xs ih =>
    by_cases hx : x ∈ seen
    · rw [pyDedupAux, if_pos hx, ih]
      constructor
      · rintro ⟨h1, h2⟩; exact ⟨List.mem_cons_of_mem _ h1, h2⟩
      · rintro ⟨h1, h2⟩
        rcases List.mem_cons.mp h1 with rfl | h1
        · exact absurd hx h2
        · exact ⟨h1, h2⟩
    · rw [pyDedupAux, if_neg hx]
      constructor
      · intro hmem
        rcases List.mem_cons.mp hmem with rfl | hmem
        · exact ⟨List.mem_cons_self _ _, hx⟩
        · obtain ⟨h1, h2⟩ := (ih (x :: seen)).mp hmem
          exact ⟨List.mem_cons_of_mem _ h1, fun hs => h2 (List.mem_cons_of_mem _ hs)⟩
      · rintro ⟨h1, h2⟩
        rcases List.mem_cons.mp h1 with rfl | h1
        · exact List.mem_cons_self _ _
        · by_cases hax : a = x
          · subst hax; exact List.mem_cons_self _ _
          · refine List.mem_cons_of_mem _ ((ih (x :: seen)).mpr ⟨h1, fun hs => ?_⟩)
            rcases List.mem_cons.mp hs with h | h
            · exact hax h
            · exact h2 h

theorem pyDedup_mem {α : Type} [DecidableEq α] (l : List α) (a : α) :
    a ∈ pyDedup l ↔ a ∈ l := by
  simp [pyDedup, pyDedupAux_mem]

theorem pyDedupAux_nodup {α : Type} [DecidableEq α] (seen : List α) (l : List α) :
    (pyDedupAux seen l).Nodup := by
  induction l generalizing seen with
  | nil => simp [pyDedupAux]
  | cons x xs ih =>
    by_cases hx : x ∈ seen
    · simpa [pyDedupAux, if_pos hx] using ih seen
    · simp only [pyDedupAux, if_neg hx, List.nodup_cons]
      refine ⟨fun hmem => ?_, ih (x :: seen)⟩
      exact ((pyDedupAux_mem _ _ _).mp hmem).2 (List.mem_cons_self _ _)

theorem pyDedup_nodup {α : Type} [DecidableEq α] (l : List α) : (pyDedup l).Nodup :=
  pyDedupAux_nodup [] l

theorem pyDedup_toFinset {α : Type} [DecidableEq α] (l : List α) :
    (pyDedup l).toFinset = l.toFinset := by
  ext a; simp [List.mem_toFinset, pyDedup_mem]

theorem pyDedup_length_eq_card {α : Type} [DecidableEq α] (l : List α) :
    (pyDedup l).length = l.toFinset.card := by
  rw [← pyDedup_toFinset]
  exact (List.toFinset_card_of_nodup (pyDedup_nodup l)).symm

/-- Python's `str.lower()` (ASCII case folding, which is all the matched
keywords need), written over the character list so that it evaluates. -/
def strLower (s : String) : String := String.mk (s.toList.map Char.toLower)

/-- Python's substring containment `p in s` on strings. -/
def substrIn (p s : String) : Bool := decide (p.toList <:+: s.toList)

theorem substrIn_iff (p s : String) :
    substrIn p s = true ↔ ∃ l r, l ++ p.toList ++ r = s.toList := by
  rw [substrIn, decide_eq_true_iff]
  exact Iff.rfl

/-- Python's `d.get(k, dflt)` on a string-keyed dict embedded as an
association list. -/
def dictGet {α : Type} (d : List (String × α)) (k : String) (dflt : α) : α :=
  match d.find? (fun p => p.1 == k) with
  | some p => p.2
  | none => dflt

/-- A value held in one cell of a read sample.  `null` stands for a missing
value (Python `None` / pandas `NaN`); other values are kept abstractly as
strings or integers, which is all the analyzed claims inspect. -/
inductive Cell where
  | null
  | str (s : String)
  | num (n : Int)
deriving DecidableEq

/-- The bounded sample a source read produces: a pandas `DataFrame`
restricted to what `analyzer.py` observes of it (column labels and the
grid of cell values, row major). -/
structure DataFrame where
  columns : List String
  rows : List (List Cell)
deriving DecidableEq

/-- The cells of column `c` of `df` (first occurrence for a duplicated
label), one per row; rows shorter than the column index read as missing. -/
def colCells (df : DataFrame) (c : String) : List Cell :=
  df.rows.map (fun r => r.getD (df.columns.indexOf c) Cell.null)

/-- `int(df[col].isnull().sum())`: the number of missing cells of a column. -/
def countNullCells (cells : List Cell) : Nat :=
  (cells.filter (fun c => c == Cell.null)).length

/-- `int(df[col].nunique())`: the number of distinct non-missing values of a
column (pandas `nunique` excludes missing values). -/
def nuniqueCells (cells : List Cell) : Nat :=
  (pyDedup (cells.filter (fun c => c != Cell.null))).length

/-- The per-column storage-type label of the read sample (pandas dtype
inference); only the key structure of the dtype mapping is relied on by the
specification, never the label values. -/
def inferDtype (cells : List Cell) : String :=
  if !cells.isEmpty && cells.all (fun c => match c with | Cell.num _ => true | _ => false)
  then "int64" else "object"

/-- `df.fillna("")` applied to one cell. -/
def fillCell (c : Cell) : Cell :=
  match c with
  | Cell.null => Cell.str ""
  | c => c

/-- The dict comprehension `{col: f col for col in cols}`: one entry per
distinct column label (first occurrence order). -/
def dictComp {α : Type} (cols : List String) (f : String → α) : List (String × α) :=
  (pyDedup cols).map (fun k => (k, f k))

/-- `SchemaInfo` from `models/schemas.py`, with its `Dict` fields embedded as
association lists. -/
structure SchemaInfo where
  columns : List String
  dtypes : List (String × String)
  sample_data : List (List (String × Cell))
  row_count : Nat
  null_counts : List (String × Nat)
  unique_counts : List (String × Nat)
deriving DecidableEq

/-- `MultiSourceAnalyzer._create_schema_info`: statistics are computed on the
raw frame, only the 5-record preview sees the `fillna("")` substitution. -/
def createSchemaInfo (df : DataFrame) : SchemaInfo :=
  { columns := df.columns
    dtypes := dictComp df.columns (fun c => inferDtype (colCells df c))
    sample_data := (df.rows.take 5).map
      (fun r => dictComp df.columns (fun c => fillCell (r.getD (df.columns.indexOf c) Cell.null)))
    row_count := df.rows.length
    null_counts := dictComp df.columns (fun c => countNullCells (colCells df c))
    unique_counts := dictComp df.columns (fun c => nuniqueCells (colCells df c)) }

/-- The all-empty `SchemaInfo` that `analyze_source` returns from its
`except Exception` handler. -/
def emptySchemaInfo : SchemaInfo :=
  { columns := [], dtypes := [], sample_data := [], row_count := 0,
    null_counts := [], unique_counts := [] }

/-- The outcome of one external read: either the fetched data or a raised
exception carrying its message. -/
inductive Fetch (α : Type) where
  | ok (v : α)
  | fail (msg : String)

/-- The content behind a delimited or spreadsheet source: header row and data
rows, in file order. -/
structure RawTable where
  header : List String
  data : List (List Cell)

/-- The content behind a hierarchical-document (JSON) source after
`json.load`: either a top-level collection of records or a single record.
Records are represented post-flattening (`pd.json_normalize` dotted paths)
as flat key-to-cell maps. -/
inductive JsonDoc where
  | coll (recs : List (List (String × Cell)))
  | single (rec : List (String × Cell))

/-- `pd.read_csv(..., nrows=n)` / `pd.read_excel(..., nrows=n)`: a bounded
prefix of the file's rows. -/
def readBounded (t : RawTable) (nrows : Nat) : DataFrame :=
  { columns := t.header, rows := t.data.take nrows }

/-- `pd.json_normalize(recs)`: columns are the keys in first-appearance
order; a record missing a key reads as missing. -/
def normalizeRecords (recs : List (List (String × Cell))) : DataFrame :=
  let cols := pyDedup (recs.flatMap (fun r => r.map Prod.fst))
  { columns := cols, rows := recs.map (fun r => cols.map (fun c => dictGet r c Cell.null)) }

/-- `MultiSourceAnalyzer._analyze_csv`: bounded read (cap 1000 rows), or the
propagated read exception. -/
def analyzeCsv (f : Fetch RawTable) : Except String SchemaInfo :=
  match f with
  | Fetch.ok t => Except.ok (createSchemaInfo (readBounded t 1000))
  | Fetch.fail m => Except.error m

/-- `MultiSourceAnalyzer._analyze_excel`: bounded read (cap 1000 rows), or
the propagated read exception. -/
def analyzeExcel (f : Fetch RawTable) : Except String SchemaInfo :=
  match f with
  | Fetch.ok t => Except.ok (createSchemaInfo (readBounded t 1000))
  | Fetch.fail m => Except.error m

/-- `MultiSourceAnalyzer._analyze_json`: the whole document is loaded and
normalized — there is no row cap on this path.  A single-object root is
wrapped into a one-record collection. -/
def analyzeJson (f : Fetch JsonDoc) : Except String SchemaInfo :=
  match f with
  | Fetch.ok (JsonDoc.coll recs) => Except.ok (createSchemaInfo (normalizeRecords recs))
  | Fetch.ok (JsonDoc.single r) => Except.ok (createSchemaInfo (normalizeRecords [r]))
  | Fetch.fail m => Except.error m

/-- `MultiSourceAnalyzer._analyze_postgresql` together with the connection
state: the result of the body, paired with whether `engine.dispose()` was
executed.  `pd.read_sql` raising exits the function before the `dispose`
line, so the flag is `false` on that path. -/
def analyzePostgresql (query : Fetch DataFrame) : Except String SchemaInfo × Bool :=
  match query with
  | Fetch.ok df => (Except.ok (createSchemaInfo df), true)
  | Fetch.fail m => (Except.error m, false)

/-- `SourceType` from `models/schemas.py`.  `clickhouse` and `rest_api` are
declared in the enumeration but have no branch in `analyze_source`. -/
inductive SourceType where
  | csv
  | postgresql
  | clickhouse
  | json
  | excel
  | rest_api
deriving DecidableEq

/-- The external state one profiling call can observe: what each kind of
read would return for the configured source. -/
structure World where
  csvFetch : Fetch RawTable
  pgQuery : Fetch DataFrame
  jsonFetch : Fetch JsonDoc
  excelFetch : Fetch RawTable

/-- The `try` body of `MultiSourceAnalyzer.analyze_source`: dispatch on the
source kind, with the `raise ValueError` of the final `else` branch as the
error case. -/
def analyzeSourceBody (ty : SourceType) (w : World) : Except String SchemaInfo :=
  match ty with
  | SourceType.csv => analyzeCsv w.csvFetch
  | SourceType.postgresql => (analyzePostgresql w.pgQuery).1
  | SourceType.json => analyzeJson w.jsonFetch
  | SourceType.excel => analyzeExcel w.excelFetch
  | _ => Except.error "Unsupported source type"

/-- `MultiSourceAnalyzer.analyze_source`: the `except Exception` handler
catches every exception of the body — including the body's own
`raise ValueError` for unsupported kinds — and returns the empty
`SchemaInfo`. -/
def analyzeSource (ty : SourceType) (w : World) : SchemaInfo :=
  match analyzeSourceBody ty w with
  | Except.ok s => s
  | Except.error _ => emptySchemaInfo

/-- The `schema_info` dict a profiled `DataSourceConfig` carries, restricted
to the keys the relationship detector and the pattern classifier read.  A
present dict always holds all of its keys (it is a dumped `SchemaInfo`), so
Python's truthiness test `not source.schema_info` coincides with absence. -/
structure SchemaDict where
  columns : List String
  row_count : Nat
  unique_counts : List (String × Nat)
deriving DecidableEq

/-- `DataSourceConfig` from `models/schemas.py`, restricted to the fields the
detector and classifier read (the opaque `config` drives only the profiler,
which observes it through a `World`). -/
structure SourceDesc where
  id : String
  name : String
  type : SourceType
  schema_info : Option SchemaDict
deriving DecidableEq

/-- `DataRelationship` from `models/schemas.py`; `join_keys` is the embedded
dict, `confidence` an exact rational. -/
structure DataRelationship where
  source1_id : String
  source2_id : String
  join_type : String
  join_keys : List (String × String)
  confidence : ℚ
deriving DecidableEq

/-- `priority_patterns` of `_identify_primary_key`. -/
def priorityPatterns : List String := ["id", "uuid", "key", "code"]

/-- The nested priority loop of `_identify_primary_key`: for each pattern in
order, the first common field whose lowercase name contains it. -/
def scanPatterns : List String → List String → Option String
  | [], _ => none
  | p :: ps, common =>
    match common.find? (fun f => substrIn p (strLower f)) with
    | some f => some f
    | none => scanPatterns ps common

/-- `unique_counts.get(field, 0) / max(schema_info.get("row_count", 1), 1)`:
the uniqueness ratio of one side. -/
def uniquenessScore (sc : SchemaDict) (f : String) : ℚ :=
  ((dictGet sc.unique_counts f 0 : Nat) : ℚ) / ((max sc.row_count 1 : Nat) : ℚ)

/-- The per-field score of the fallback: the minimum of the two sides'
uniqueness ratios. -/
def minScore (sc1 sc2 : SchemaDict) (f : String) : ℚ :=
  min (uniquenessScore sc1 f) (uniquenessScore sc2 f)

/-- The fallback loop of `_identify_primary_key`: running best field and best
score, updated on a strict improvement only. -/
def bestScan (sc1 sc2 : SchemaDict) : List String → Option String × ℚ → Option String × ℚ
  | [], acc => acc
  | f :: fs, acc =>
    bestScan sc1 sc2 fs (if acc.2 < minScore sc1 sc2 f then (some f, minScore sc1 sc2 f) else acc)

/-- The fallback of `_identify_primary_key`: start from `(None, 0)` and keep
the field with the highest score; `None` survives when no field ever beats
the initial `0`. -/
def bestByUniqueness (common : List String) (sc1 sc2 : SchemaDict) : Option String :=
  (bestScan sc1 sc2 common (none, 0)).1

/-- `MultiSourceAnalyzer._identify_primary_key`.  `common` is the iteration
order of the intersection set. -/
def identifyPrimaryKey (common : List String) (s1 s2 : SourceDesc) : Option String :=
  match scanPatterns priorityPatterns common with
  | some f => some f
  | none =>
    match s1.schema_info, s2.schema_info with
    | some sc1, some sc2 => bestByUniqueness common sc1 sc2
    | _, _ => common.head?

/-- The intersection `set(cols1) & set(cols2)` in the embedding's iteration
order (first occurrences of the left column sequence). -/
def commonColumns (sc1 sc2 : SchemaDict) : List String :=
  (pyDedup sc1.columns).filter (fun c => decide (c ∈ pyDedup sc2.columns))

/-- The body of one `(i, j)` iteration of `find_relationships`: skip pairs
with a missing schema dict or no common column, otherwise emit the
relationship with its confidence. -/
def pairRelationship (s1 s2 : SourceDesc) : Option DataRelationship :=
  match s1.schema_info, s2.schema_info with
  | some sc1, some sc2 =>
    let common := commonColumns sc1 sc2
    if common.isEmpty then none
    else
      some { source1_id := s1.id, source2_id := s2.id, join_type := "LEFT JOIN",
             join_keys := match identifyPrimaryKey common s1 s2 with
               | some k => [(k, k)]
               | none => [],
             confidence := (common.length : ℚ)
               / ((max (pyDedup sc1.columns).length (pyDedup sc2.columns).length : Nat) : ℚ) }
  | _, _ => none

/-- `MultiSourceAnalyzer.find_relationships`: nested iteration over pairs
`i < j` in order, appending one relationship per qualifying pair. -/
def findRelationships : List SourceDesc → List DataRelationship
  | [] => []
  | s :: rest => rest.filterMap (fun t => pairRelationship s t) ++ findRelationships rest

/-- All pairs `(i, j)` with `i < j` of a list, in the nested iteration order
(`i` ascending, then `j` ascending). -/
def orderedPairs {α : Type} : List α → List (α × α)
  | [] => []
  | x :: rest => rest.map (fun y => (x, y)) ++ orderedPairs rest

/-- `temporal_keywords` of `analyze_data_patterns`. -/
def temporalKeywords : List String := ["date", "time", "created", "updated", "timestamp"]

/-- `geo_keywords` of `analyze_data_patterns`. -/
def geoKeywords : List String := ["lat", "lon", "city", "country", "region", "address"]

/-- A column name whose lowercase form contains a temporal keyword. -/
def isTemporalCol (c : String) : Bool :=
  temporalKeywords.any (fun k => substrIn k (strLower c))

/-- A column name whose lowercase form contains a geographic keyword. -/
def isGeoCol (c : String) : Bool :=
  geoKeywords.any (fun k => substrIn k (strLower c))

/-- The `patterns` dict `analyze_data_patterns` fills in;
`data_types_distribution` is initialized empty and never written. -/
structure DataPatterns where
  has_temporal_data : Bool
  temporal_columns : List String
  has_geographical_data : Bool
  geographical_columns : List String
  total_estimated_rows : Nat
  data_types_distribution : List (String × Nat)
  suggested_partitioning : Option String
deriving DecidableEq

/-- `MultiSourceAnalyzer.analyze_data_patterns`: sources without a schema
dict contribute nothing; the flags are set exactly when a matching column was
appended; the partition suggestion only exists for temporal data. -/
def analyzeDataPatterns (sources : List SourceDesc) : DataPatterns :=
  let profiled := sources.filterMap (fun s => s.schema_info)
  let total_rows := (profiled.map (fun sc => sc.row_count)).sum
  let tcols := profiled.flatMap (fun sc => sc.columns.filter isTemporalCol)
  let gcols := profiled.flatMap (fun sc => sc.columns.filter isGeoCol)
  { has_temporal_data := !tcols.isEmpty
    temporal_columns := tcols
    has_geographical_data := !gcols.isEmpty
    geographical_columns := gcols
    total_estimated_rows := total_rows
    data_types_distribution := []
    suggested_partitioning :=
      if !tcols.isEmpty then
        if 1000000 < total_rows then some "monthly"
        else if 100000 < total_rows then some "yearly"
        else none
      else none }

/-- `UpdateFrequency` from `models/schemas.py`. -/
inductive UpdateFrequency where
  | once
  | hourly
  | daily
  | weekly
  | realtime
deriving DecidableEq

/-- The `.value` string of the `UpdateFrequency` enumeration. -/
def UpdateFrequency.value : UpdateFrequency → String
  | UpdateFrequency.once => "once"
  | UpdateFrequency.hourly => "hourly"
  | UpdateFrequency.daily => "daily"
  | UpdateFrequency.weekly => "weekly"
  | UpdateFrequency.realtime => "realtime"

/-- `BusinessRequirements` from `models/schemas.py`. -/
structure BusinessRequirements where
  goal : String
  target_metrics : List String
  update_frequency : UpdateFrequency
  expected_load : String
  data_retention : String
deriving DecidableEq

/-- The fixed analytics-keyword list of
`_generate_rule_based_recommendations`. -/
def analyticsKeywords : List String := ["продажи", "аналитика", "отчет", "дашборд"]

/-- `any(metric in [...] for metric in business_requirements.target_metrics)`:
exact membership, not substring matching. -/
def isAnalyticsReq (req : BusinessRequirements) : Bool :=
  req.target_metrics.any (fun m => analyticsKeywords.contains m)

/-- The `freq_map` dict of `_generate_rule_based_recommendations`. -/
def freqMap : List (String × String) :=
  [("once", "# Run once manually"), ("hourly", "0 * * * *"),
   ("daily", "0 2 * * *"), ("weekly", "0 2 * * 0")]

/-- The ClickHouse DDL skeleton f-string of
`_generate_rule_based_recommendations` (before the final `.strip()`). -/
def clickhouseDdl (main_table : String) (partitioning : Option String) (indexes : List String) : String :=
  "\nCREATE TABLE " ++ main_table ++
    "\n(\n    date Date,\n    timestamp DateTime,\n    -- Add your columns here based on source analysis\n) ENGINE = MergeTree()\n" ++
    (match partitioning with | some p => p | none => "") ++
    "\nORDER BY (" ++
    (if indexes.isEmpty then "date" else String.intercalate ", " indexes) ++ ")\n"

/-- The PostgreSQL DDL skeleton f-string of
`_generate_rule_based_recommendations` (before the final `.strip()`). -/
def postgresqlDdl (main_table : String) (indexes : List String) : String :=
  "\nCREATE TABLE " ++ main_table ++
    " (\n    id SERIAL PRIMARY KEY,\n    created_at TIMESTAMP DEFAULT CURRENT_TIMESTAMP,\n    -- Add your columns here based on source analysis\n);\n" ++
    (if indexes.isEmpty then ""
     else "CREATE INDEX ON " ++ main_table ++ " (" ++ String.intercalate ", " indexes ++ ");") ++
    "\n"

/-- The fields of the dict `_generate_rule_based_recommendations` returns
(flattened; the nesting is restored by `ruleBasedJson`). -/
structure RuleBasedRec where
  primary : String
  reasoning : String
  alternatives : List String
  main_table : String
  partitioning : Option String
  indexes : List String
  ddl_script : String
  steps : List String
  schedule : String
  estimated_runtime : String
deriving DecidableEq

/-- `LLMService._generate_rule_based_recommendations`.  The `sources`
argument is accepted and ignored exactly as in the source. -/
def generateRuleBasedRecommendations (_sources : List SourceDesc)
    (req : BusinessRequirements) (patterns : DataPatterns) : RuleBasedRec :=
  let total_rows := patterns.total_estimated_rows
  let has_temporal := patterns.has_temporal_data
  let is_analytics := isAnalyticsReq req
  let sr : String × String :=
    if is_analytics && has_temporal && decide (100000 < total_rows) then
      ("clickhouse", "Аналитические запросы по временным данным с большим объемом")
    else if decide (1000000 < total_rows) then
      ("clickhouse", "Большой объем данных требует колоночного хранилища")
    else
      ("postgresql", "Стандартные операционные данные средней нагрузки")
  let storage := sr.1
  let partitioning : Option String :=
    if has_temporal && (storage == "clickhouse") then
      if decide (1000000 < total_rows) then some "PARTITION BY toYYYYMM(date)"
      else some "PARTITION BY toYear(date)"
    else none
  let indexes := patterns.temporal_columns.take 2
  let main_table := if is_analytics then "analytics_data" else "processed_data"
  let ddl := if storage == "clickhouse" then clickhouseDdl main_table partitioning indexes
             else postgresqlDdl main_table indexes
  { primary := storage
    reasoning := sr.2
    alternatives := if storage == "hdfs" then ["postgresql", "clickhouse"] else ["hdfs"]
    main_table := main_table
    partitioning := partitioning
    indexes := indexes
    ddl_script := ddl.trim
    steps := ["Extract from sources", "Join data on common keys", "Apply transformations",
              "Load to " ++ storage]
    schedule := dictGet freqMap req.update_frequency.value "0 2 * * *"
    estimated_runtime := "10-30 minutes" }

/-- A JSON value: the type of the dict `generate_recommendations` returns. -/
inductive JsonVal where
  | null
  | bool (b : Bool)
  | num (n : Int)
  | str (s : String)
  | arr (elems : List JsonVal)
  | obj (fields : List (String × JsonVal))

/-- Whether a JSON value is the empty object (the value
`_parse_llm_response` returns from its handler). -/
def JsonVal.isEmptyObj : JsonVal → Bool
  | JsonVal.obj [] => true
  | _ => false

/-- The nested dict literal `_generate_rule_based_recommendations` returns,
as a JSON value. -/
def ruleBasedJson (sources : List SourceDesc) (req : BusinessRequirements)
    (patterns : DataPatterns) : JsonVal :=
  let r := generateRuleBasedRecommendations sources req patterns
  JsonVal.obj
    [("storage_recommendation", JsonVal.obj
        [("primary", JsonVal.str r.primary),
         ("reasoning", JsonVal.str r.reasoning),
         ("alternatives", JsonVal.arr (r.alternatives.map JsonVal.str))]),
     ("schema_design", JsonVal.obj
        [("main_table", JsonVal.str r.main_table),
         ("partitioning", match r.partitioning with
           | some p => JsonVal.str p
           | none => JsonVal.null),
         ("indexes", JsonVal.arr (r.indexes.map JsonVal.str)),
         ("ddl_script", JsonVal.str r.ddl_script)]),
     ("etl_pipeline", JsonVal.obj
        [("steps", JsonVal.arr (r.steps.map JsonVal.str)),
         ("schedule", JsonVal.str r.schedule),
         ("estimated_runtime", JsonVal.str r.estimated_runtime)])]

/-- The opening-brace character, `chr(123)`. -/
def lbrace : Char := Char.ofNat 123

/-- The closing-brace character, `chr(125)`. -/
def rbrace : Char := Char.ofNat 125

/-- Python `str.find` on a single character: index of the first occurrence. -/
def findIdx (c : Char) : List Char → Option Nat
  | [] => none
  | x :: xs => if x = c then some 0 else (findIdx c xs).map (fun i => i + 1)

/-- Python `str.rfind` on a single character: index of the last occurrence. -/
def rfindIdx (c : Char) : List Char → Option Nat
  | [] => none
  | x :: xs =>
    match rfindIdx c xs with
    | some i => some (i + 1)
    | none => if x = c then some 0 else none

/-- `LLMService._parse_llm_response` with `json.loads` abstracted as a
partial parsing function `loads` (`none` models a raised `JSONDecodeError`).
The slice from the first opening brace to the last closing brace is handed
to `loads`; every failure path is caught and yields the empty object. -/
def parseLlmResponse (loads : String → Option JsonVal) (response : String) : JsonVal :=
  let cs := response.toList
  match findIdx lbrace cs, rfindIdx rbrace cs with
  | some s, some e =>
    match loads (String.mk ((cs.drop s).take (e + 1 - s))) with
    | some v => v
    | none => JsonVal.obj []
  | _, _ => JsonVal.obj []

/-- The observable behavior of one backend call
(`_call_yandex_gpt` / `_call_deepseek`): the HTTP client raising
(network error or the 30s timeout), a non-success status (the function
logs and returns `None`), or a success reply text. -/
inductive CallOutcome where
  | raises (msg : String)
  | httpFailure (status : Nat)
  | replies (text : String)

/-- The environment `generate_recommendations` runs against: which API keys
are configured, what each backend call would do, and what `json.loads`
returns on a given text. -/
structure LLMEnv where
  yandexApiKey : Bool
  yandexOutcome : CallOutcome
  deepseekApiKey : Bool
  deepseekOutcome : CallOutcome
  jsonLoads : String → Option JsonVal

/-- The DeepSeek leg and the final fallback of the `try` body of
`generate_recommendations`: consulted when YandexGPT produced no usable
reply; an empty reply string is falsy and also falls through. -/
def tryDeepseek (env : LLMEnv) (sources : List SourceDesc) (req : BusinessRequirements)
    (patterns : DataPatterns) : Except String JsonVal :=
  if env.deepseekApiKey then
    match env.deepseekOutcome with
    | CallOutcome.raises m => Except.error m
    | CallOutcome.httpFailure _ => Except.ok (ruleBasedJson sources req patterns)
    | CallOutcome.replies t =>
      if t = "" then Except.ok (ruleBasedJson sources req patterns)
      else Except.ok (parseLlmResponse env.jsonLoads t)
  else Except.ok (ruleBasedJson sources req patterns)

/-- The `try` body of `generate_recommendations`: YandexGPT first, then
DeepSeek, then the rule-based fallback; a raised exception anywhere aborts
the chain. -/
def tryBackends (env : LLMEnv) (sources : List SourceDesc) (req : BusinessRequirements)
    (patterns : DataPatterns) : Except String JsonVal :=
  if env.yandexApiKey then
    match env.yandexOutcome with
    | CallOutcome.raises m => Except.error m
    | CallOutcome.httpFailure _ => tryDeepseek env sources req patterns
    | CallOutcome.replies t =>
      if t = "" then tryDeepseek env sources req patterns
      else Except.ok (parseLlmResponse env.jsonLoads t)
  else tryDeepseek env sources req patterns

/-- `LLMService.generate_recommendations`: the `except Exception` handler
turns any raised exception of the body into the rule-based result.  The
embedding covers the calls on which `_create_analysis_prompt` succeeds
(every source carries a schema dict, as the callers in `main.py` ensure);
the prompt text itself only flows into the backend request, which the
environment abstracts. -/
def generateRecommendations (env : LLMEnv) (sources : List SourceDesc)
    (req : BusinessRequirements) (patterns : DataPatterns) : JsonVal :=
  match tryBackends env sources req patterns with
  | Except.ok v => v
  | Except.error _ => ruleBasedJson sources req patterns

/-- Specification-side characterization of the fallback chain: the reply
text whose parse `recommend` returns, if any.  `none` means control reaches
the rule-based strategy — whether by exhausting the chain or by a raised
exception. -/
def usableDeepseekReply (env : LLMEnv) : Option String :=
  if env.deepseekApiKey then
    match env.deepseekOutcome with
    | CallOutcome.replies t => if t = "" then none else some t
    | _ => none
  else none

/-- Specification-side characterization of the fallback chain, first leg:
see `usableDeepseekReply`. -/
def effectiveReply (env : LLMEnv) : Option String :=
  if env.yandexApiKey then
    match env.yandexOutcome with
    | CallOutcome.raises _ => none
    | CallOutcome.httpFailure _ => usableDeepseekReply env
    | CallOutcome.replies t => if t = "" then usableDeepseekReply env else some t
  else usableDeepseekReply env

theorem dictComp_keys {α : Type} (cols : List String) (f : String → α) :
    (dictComp cols f).map Prod.fst = pyDedup cols := by
  rw [dictComp, List.map_map]
  have hid : (Prod.fst ∘ fun k => (k, f k)) = (id : String → String) := rfl
  rw [hid, List.map_id]

theorem createSchemaInfo_sample_len (df : DataFrame) :
    (createSchemaInfo df).sample_data.length = min 5 (createSchemaInfo df).row_count := by
  simp [createSchemaInfo, List.length_take]

theorem analyzeSource_shape (ty : SourceType) (w : World) :
    (∃ df, analyzeSource ty w = createSchemaInfo df) ∨ analyzeSource ty w = emptySchemaInfo := by
  cases ty with
  | csv =>
    cases hf : w.csvFetch with
    | ok t =>
      exact Or.inl ⟨readBounded t 1000, by simp [analyzeSource, analyzeSourceBody, analyzeCsv, hf]⟩
    | fail m => exact Or.inr (by simp [analyzeSource, analyzeSourceBody, analyzeCsv, hf])
  | postgresql =>
    cases hf : w.pgQuery with
    | ok df =>
      exact Or.inl ⟨df, by simp [analyzeSource, analyzeSourceBody, analyzePostgresql, hf]⟩
    | fail m => exact Or.inr (by simp [analyzeSource, analyzeSourceBody, analyzePostgresql, hf])
  | json =>
    cases hf : w.jsonFetch with
    | ok d =>
      cases d with
      | coll recs =>
        exact Or.inl ⟨normalizeRecords recs, by simp [analyzeSource, analyzeSourceBody, analyzeJson, hf]⟩
      | single r =>
        exact Or.inl ⟨normalizeRecords [r], by simp [analyzeSource, analyzeSourceBody, analyzeJson, hf]⟩
    | fail m => exact Or.inr (by simp [analyzeSource, analyzeSourceBody, analyzeJson, hf])
  | excel =>
    cases hf : w.excelFetch with
    | ok t =>
      exact Or.inl ⟨readBounded t 1000, by simp [analyzeSource, analyzeSourceBody, analyzeExcel, hf]⟩
    | fail m => exact Or.inr (by simp [analyzeSource, analyzeSourceBody, analyzeExcel, hf])
  | clickhouse => exact Or.inr rfl
  | rest_api => exact Or.inr rfl

/-- C2: the claim reads "profile raises exactly on unsupported source kinds";
on the code, the `raise ValueError` of the unsupported-kind branch sits
inside `analyze_source`'s own `try`, whose blanket `except Exception`
swallows it: for the enumeration members `clickhouse` and `rest_api` (which
have no dispatch branch) the body errors but the caller receives the empty
`SchemaInfo`, never an exception — while the caller in `main.py` wraps the
call in a handler that expects one. -/
theorem C2_unsupported_kind_swallowed (w : World) :
    analyzeSourceBody SourceType.clickhouse w = Except.error "Unsupported source type"
    ∧ analyzeSource SourceType.clickhouse w = emptySchemaInfo
    ∧ analyzeSourceBody SourceType.rest_api w = Except.error "Unsupported source type"
    ∧ analyzeSource SourceType.rest_api w = emptySchemaInfo :=
  ⟨rfl, rfl, rfl, rfl⟩

/-- C3 (amended): the 1000-row cap holds for the delimited and spreadsheet
paths; the hierarchical-document path reads the whole collection, so its
`row_count` is exactly the record count, unbounded; and for every profiling
result the sample preview has length `min 5 row_count`, hence at most 5, at
most `row_count`, and exactly 5 whenever `row_count ≥ 5`. -/
theorem C3_row_cap_amended (ty : SourceType) (w : World) :
    ((ty = SourceType.csv ∨ ty = SourceType.excel) → (analyzeSource ty w).row_count ≤ 1000)
    ∧ (∀ recs, w.jsonFetch = Fetch.ok (JsonDoc.coll recs) →
        (analyzeSource SourceType.json w).row_count = recs.length)
    ∧ (analyzeSource ty w).sample_data.length = min 5 (analyzeSource ty w).row_count
    ∧ (analyzeSource ty w).sample_data.length ≤ 5
    ∧ (analyzeSource ty w).sample_data.length ≤ (analyzeSource ty w).row_count
    ∧ (5 ≤ (analyzeSource ty w).row_count → (analyzeSource ty w).sample_data.length = 5) := by
  have hmin : (analyzeSource ty w).sample_data.length = min 5 (analyzeSource ty w).row_count := by
    rcases analyzeSource_shape ty w with ⟨df, hdf⟩ | hempty
    · rw [hdf]; exact createSchemaInfo_sample_len df
    · rw [hempty]; simp [emptySchemaInfo]
  refine ⟨?_, ?_, hmin, ?_, ?_, ?_⟩
  · intro hty
    rcases hty with rfl | rfl
    · cases hf : w.csvFetch with
      | ok t =>
        simp only [analyzeSource, analyzeSourceBody, analyzeCsv, hf, createSchemaInfo, readBounded]
        simp [List.length_take]
      | fail m => simp [analyzeSource, analyzeSourceBody, analyzeCsv, hf, emptySchemaInfo]
    · cases hf : w.excelFetch with
      | ok t =>
        simp only [analyzeSource, analyzeSourceBody, analyzeExcel, hf, createSchemaInfo, readBounded]
        simp [List.length_take]
      | fail m => simp [analyzeSource, analyzeSourceBody, analyzeExcel, hf, emptySchemaInfo]
  · intro recs hj
    simp [analyzeSource, analyzeSourceBody, analyzeJson, hj, createSchemaInfo, normalizeRecords]
  · omega
  · omega
  · omega

/-- C3 counterexample: a hierarchical-document source whose collection holds
1001 records is profiled with `row_count = 1001 > 1000` — the claimed cap
does not hold for the JSON path. -/
def w1001 : World :=
  { csvFetch := Fetch.fail "unused"
    pgQuery := Fetch.fail "unused"
    jsonFetch := Fetch.ok (JsonDoc.coll (List.replicate 1001 [("a", Cell.num 1)]))
    excelFetch := Fetch.fail "unused" }

/-- C3: at `w1001` the JSON profiling result exceeds the claimed 1000-row
cap. -/
theorem C3_json_uncapped_counterexample :
    1000 < (analyzeSource SourceType.json w1001).row_count := by
  have h : (analyzeSource SourceType.json w1001).row_count = 1001 :=
    ((C3_row_cap_amended SourceType.json w1001).2.1
      (List.replicate 1001 [("a", Cell.num 1)]) rfl).trans
      (List.length_replicate 1001 [("a", Cell.num 1)])
  omega

/-- C3 witness world: a six-row delimited source and a one-record document
source. -/
def wBig : World :=
  { csvFetch := Fetch.ok
      { header := ["created_at", "value"]
        data := List.replicate 6 [Cell.str "2024-01-01", Cell.num 1] }
    pgQuery := Fetch.fail "unused"
    jsonFetch := Fetch.ok (JsonDoc.coll [[("a", Cell.num 1)]])
    excelFetch := Fetch.fail "unused" }

/-- C3 witness: the amended row-cap theorem applied at `wBig`. -/
theorem C3_row_cap_witness :
    (analyzeSource SourceType.csv wBig).row_count ≤ 1000
    ∧ (analyzeSource SourceType.csv wBig).sample_data.length = 5
    ∧ (analyzeSource SourceType.json wBig).row_count = 1 := by
  refine ⟨(C3_row_cap_amended SourceType.csv wBig).1 (Or.inl rfl), ?_, ?_⟩
  · refine (C3_row_cap_amended SourceType.csv wBig).2.2.2.2.2 ?_
    have h : (analyzeSource SourceType.csv wBig).row_count = 6 := rfl
    omega
  · exact (C3_row_cap_amended SourceType.json wBig).2.1 [[("a", Cell.num 1)]] rfl

/-- C4 (amended): the connection is released exactly on the successful exit
path; when the bounded `SELECT` raises, `engine.dispose()` on the following
line is never executed and the exception propagates to `analyze_source`'s
handler. -/
theorem C4_connection_release_amended (df : DataFrame) (m : String) :
    analyzePostgresql (Fetch.ok df) = (Except.ok (createSchemaInfo df), true)
    ∧ analyzePostgresql (Fetch.fail m) = (Except.error m, false) :=
  ⟨rfl, rfl⟩

/-- C4 counterexample: on a failing query the engine is not disposed — the
claimed release-on-every-exit-path is violated. -/
theorem C4_connection_leak_counterexample :
    (analyzePostgresql (Fetch.fail "connection reset by peer")).2 = false :=
  rfl

/-- C9: for every profiling result — produced by any source kind against any
external state, failure results included — the key sets of the dtype,
null-count and distinct-count mappings each coincide with the set of names
in the column sequence. -/
theorem C9_schema_key_sets (ty : SourceType) (w : World) :
    ((analyzeSource ty w).dtypes.map Prod.fst).toFinset = (analyzeSource ty w).columns.toFinset
    ∧ ((analyzeSource ty w).null_counts.map Prod.fst).toFinset
        = (analyzeSource ty w).columns.toFinset
    ∧ ((analyzeSource ty w).unique_counts.map Prod.fst).toFinset
        = (analyzeSource ty w).columns.toFinset := by
  rcases analyzeSource_shape ty w with ⟨df, hdf⟩ | hempty
  · rw [hdf]
    refine ⟨?_, ?_, ?_⟩ <;> simp [createSchemaInfo, dictComp_keys, pyDedup_toFinset]
  · rw [hempty]
    refine ⟨rfl, rfl, rfl⟩

/-- C7: the rule-based recommender chooses `clickhouse` exactly when the
target metrics meet the analytics-keyword set and temporal signal holds and
total rows exceed 100,000, or when total rows exceed 1,000,000; otherwise
`postgresql`; and it emits a partition expression exactly when temporal
signal holds and the chosen storage is columnar — the monthly truncation
above 1,000,000 rows, the yearly one otherwise. -/
theorem C7_rule_based_storage (sources : List SourceDesc) (req : BusinessRequirements)
    (patterns : DataPatterns) :
    (generateRuleBasedRecommendations sources req patterns).primary
      = (if (isAnalyticsReq req = true ∧ patterns.has_temporal_data = true
              ∧ 100000 < patterns.total_estimated_rows)
            ∨ 1000000 < patterns.total_estimated_rows
         then "clickhouse" else "postgresql")
    ∧ (generateRuleBasedRecommendations sources req patterns).partitioning
      = (if patterns.has_temporal_data = true
            ∧ ((isAnalyticsReq req = true ∧ 100000 < patterns.total_estimated_rows)
                ∨ 1000000 < patterns.total_estimated_rows)
         then some (if 1000000 < patterns.total_estimated_rows
                    then "PARTITION BY toYYYYMM(date)" else "PARTITION BY toYear(date)")
         else none) := by
  by_cases hA : isAnalyticsReq req = true <;>
    by_cases hT : patterns.has_temporal_data = true <;>
    by_cases h1 : 100000 < patterns.total_estimated_rows <;>
    by_cases h2 : 1000000 < patterns.total_estimated_rows <;>
    first
      | exact absurd (lt_trans (by norm_num) h2) h1
      | simp [generateRuleBasedRecommendations, hA, hT, h1, h2]

/-- C10: the rule-based strategy never selects `hdfs` as the primary storage
— the primary is always `clickhouse` or `postgresql` — and its alternatives
list is therefore always exactly `["hdfs"]`. -/
theorem C10_no_hdfs_primary (sources : List SourceDesc) (req : BusinessRequirements)
    (patterns : DataPatterns) :
    ((generateRuleBasedRecommendations sources req patterns).primary = "clickhouse"
      ∨ (generateRuleBasedRecommendations sources req patterns).primary = "postgresql")
    ∧ (generateRuleBasedRecommendations sources req patterns).alternatives = ["hdfs"] := by
  by_cases hA : isAnalyticsReq req = true <;>
    by_cases hT : patterns.has_temporal_data = true <;>
    by_cases h1 : 100000 < patterns.total_estimated_rows <;>
    by_cases h2 : 1000000 < patterns.total_estimated_rows <;>
    first
      | exact absurd (lt_trans (by norm_num) h2) h1
      | simp [generateRuleBasedRecommendations, hA, hT, h1, h2]

/-- C8: the temporal flag is set exactly when some profiled column's
lowercase name contains a temporal keyword, and the temporal-columns list
collects exactly those columns (duplicates across sources preserved);
symmetrically for the geographic keywords; the total row estimate is the sum
of the profiled sources' row counts; and the partition suggestion is
`monthly` iff temporal and more than 1,000,000 rows, `yearly` iff temporal
and between 100,001 and 1,000,000 rows, and absent otherwise. -/
theorem C8_pattern_classifier (sources : List SourceDesc) :
    ((analyzeDataPatterns sources).has_temporal_data = true
      ↔ ∃ sc ∈ sources.filterMap (fun s => s.schema_info),
          ∃ c ∈ sc.columns, isTemporalCol c = true)
    ∧ (analyzeDataPatterns sources).temporal_columns
        = (sources.filterMap (fun s => s.schema_info)).flatMap
            (fun sc => sc.columns.filter isTemporalCol)
    ∧ (∀ c, c ∈ (analyzeDataPatterns sources).temporal_columns
        ↔ ∃ sc ∈ sources.filterMap (fun s => s.schema_info),
            c ∈ sc.columns
            ∧ ∃ k ∈ temporalKeywords, ∃ pre post, pre ++ k.toList ++ post = (strLower c).toList)
    ∧ ((analyzeDataPatterns sources).has_geographical_data = true
      ↔ ∃ sc ∈ sources.filterMap (fun s => s.schema_info),
          ∃ c ∈ sc.columns, isGeoCol c = true)
    ∧ (analyzeDataPatterns sources).geographical_columns
        = (sources.filterMap (fun s => s.schema_info)).flatMap
            (fun sc => sc.columns.filter isGeoCol)
    ∧ (analyzeDataPatterns sources).total_estimated_rows
        = ((sources.filterMap (fun s => s.schema_info)).map (fun sc => sc.row_count)).sum
    ∧ ((analyzeDataPatterns sources).suggested_partitioning = some "monthly"
      ↔ (analyzeDataPatterns sources).has_temporal_data = true
        ∧ 1000000 < (analyzeDataPatterns sources).total_estimated_rows)
    ∧ ((analyzeDataPatterns sources).suggested_partitioning = some "yearly"
      ↔ (analyzeDataPatterns sources).has_temporal_data = true
        ∧ 100000 < (analyzeDataPatterns sources).total_estimated_rows
        ∧ (analyzeDataPatterns sources).total_estimated_rows ≤ 1000000)
    ∧ ((analyzeDataPatterns sources).suggested_partitioning = none
      ↔ (analyzeDataPatterns sources).has_temporal_data = false
        ∨ (analyzeDataPatterns sources).total_estimated_rows ≤ 100000) := by
  have htc : (analyzeDataPatterns sources).temporal_columns
      = (sources.filterMap (fun s => s.schema_info)).flatMap
          (fun sc => sc.columns.filter isTemporalCol) := rfl
  have hgc : (analyzeDataPatterns sources).geographical_columns
      = (sources.filterMap (fun s => s.schema_info)).flatMap
          (fun sc => sc.columns.filter isGeoCol) := rfl
  have hflag : (analyzeDataPatterns sources).has_temporal_data
      = !(analyzeDataPatterns sources).temporal_columns.isEmpty := rfl
  have hgflag : (analyzeDataPatterns sources).has_geographical_data
      = !(analyzeDataPatterns sources).geographical_columns.isEmpty := rfl
  have hpart : (analyzeDataPatterns sources).suggested_partitioning
      = (if (analyzeDataPatterns sources).has_temporal_data then
           if 1000000 < (analyzeDataPatterns sources).total_estimated_rows then some "monthly"
           else if 100000 < (analyzeDataPatterns sources).total_estimated_rows then some "yearly"
           else none
         else none) := rfl
  refine ⟨?_, htc, ?_, ?_, hgc, rfl, ?_, ?_, ?_⟩
  · rw [hflag, htc]
    simp [List.isEmpty_iff, List.eq_nil_iff_forall_not_mem, List.mem_flatMap, List.mem_filter]
    constructor
    · rintro ⟨c, sc, s, hs, hsc, hc, hcol⟩
      exact ⟨sc, ⟨s, hs, hsc⟩, c, hc, hcol⟩
    · rintro ⟨sc, ⟨s, hs, hsc⟩, c, hc, hcol⟩
      exact ⟨c, sc, s, hs, hsc, hc, hcol⟩
  · intro c
    rw [htc]
    simp [List.mem_flatMap, List.mem_filter, isTemporalCol, List.any_eq_true, substrIn_iff]
  · rw [hgflag, hgc]
    simp [List.isEmpty_iff, List.eq_nil_iff_forall_not_mem, List.mem_flatMap, List.mem_filter]
    constructor
    · rintro ⟨c, sc, s, hs, hsc, hc, hcol⟩
      exact ⟨sc, ⟨s, hs, hsc⟩, c, hc, hcol⟩
    · rintro ⟨sc, ⟨s, hs, hsc⟩, c, hc, hcol⟩
      exact ⟨c, sc, s, hs, hsc, hc, hcol⟩
  · rw [hpart]
    by_cases hT : (analyzeDataPatterns sources).has_temporal_data = true <;>
      by_cases h2 : 1000000 < (analyzeDataPatterns sources).total_estimated_rows <;>
      by_cases h1 : 100000 < (analyzeDataPatterns sources).total_estimated_rows <;>
      simp [hT, h1, h2]
  · rw [hpart]
    by_cases hT : (analyzeDataPatterns sources).has_temporal_data = true <;>
      by_cases h2 : 1000000 < (analyzeDataPatterns sources).total_estimated_rows <;>
      by_cases h1 : 100000 < (analyzeDataPatterns sources).total_estimated_rows <;>
      (simp [hT, h1, h2]
       try omega)
  · rw [hpart]
    by_cases hT : (analyzeDataPatterns sources).has_temporal_data = true <;>
      by_cases h2 : 1000000 < (analyzeDataPatterns sources).total_estimated_rows <;>
      by_cases h1 : 100000 < (analyzeDataPatterns sources).total_estimated_rows <;>
      (simp [hT, h1, h2]
       try omega)

theorem findRelationships_eq_orderedPairs (sources : List SourceDesc) :
    findRelationships sources
      = (orderedPairs sources).filterMap (fun p => pairRelationship p.1 p.2) := by
  induction sources with
  | nil => rfl
  | cons s rest ih =>
    rw [findRelationships, orderedPairs, List.filterMap_append, ih, List.filterMap_map]
    rfl

/-- C5: `find_relationships` emits exactly one relationship per pair `i < j`
in which both sources carry a schema dict and share at least one column name
(case-sensitive), in nested iteration order; pairs with a missing schema
dict or an empty intersection produce nothing; each emitted relationship's
confidence is the common-column count over the larger distinct-column count,
always in `[0, 1]` and equal to `1` for identical column sets. -/
theorem C5_find_relationships_spec (sources : List SourceDesc) :
    findRelationships sources
      = (orderedPairs sources).filterMap (fun p => pairRelationship p.1 p.2)
    ∧ (∀ s1 s2 : SourceDesc, (s1.schema_info = none ∨ s2.schema_info = none) →
        pairRelationship s1 s2 = none)
    ∧ (∀ s1 s2 sc1 sc2, s1.schema_info = some sc1 → s2.schema_info = some sc2 →
        commonColumns sc1 sc2 = [] → pairRelationship s1 s2 = none)
    ∧ (∀ s1 s2 sc1 sc2 r, s1.schema_info = some sc1 → s2.schema_info = some sc2 →
        pairRelationship s1 s2 = some r →
          r.confidence = ((commonColumns sc1 sc2).length : ℚ)
              / ((max (pyDedup sc1.columns).length (pyDedup sc2.columns).length : Nat) : ℚ)
          ∧ 0 ≤ r.confidence ∧ r.confidence ≤ 1
          ∧ (sc1.columns.toFinset = sc2.columns.toFinset → r.confidence = 1)) := by
  refine ⟨findRelationships_eq_orderedPairs sources, ?_, ?_, ?_⟩
  · intro s1 s2 h
    rcases h with h | h
    · cases h2 : s2.schema_info <;> simp [pairRelationship, h, h2]
    · cases h1 : s1.schema_info <;> simp [pairRelationship, h, h1]
  · intro s1 s2 sc1 sc2 hs1 hs2 hc
    simp [pairRelationship, hs1, hs2, hc]
  · intro s1 s2 sc1 sc2 r hs1 hs2 hr
    simp only [pairRelationship, hs1, hs2] at hr
    by_cases he : (commonColumns sc1 sc2).isEmpty = true
    · rw [if_pos he] at hr
      exact Option.noConfusion hr
    · rw [if_neg he] at hr
      have hne : commonColumns sc1 sc2 ≠ [] := by
        intro h
        exact he (by rw [h]; rfl)
      have hnpos : 0 < (commonColumns sc1 sc2).length := List.length_pos.mpr hne
      have hle1 : (commonColumns sc1 sc2).length ≤ (pyDedup sc1.columns).length :=
        List.length_filter_le _ _
      have hdpos : 0 < (max (pyDedup sc1.columns).length (pyDedup sc2.columns).length) :=
        lt_of_lt_of_le hnpos (le_trans hle1 (le_max_left _ _))
      obtain rfl : _ = r := Option.some.inj hr
      refine ⟨rfl, ?_, ?_, ?_⟩
      · exact div_nonneg (Nat.cast_nonneg _) (Nat.cast_nonneg _)
      · rw [div_le_one (by exact_mod_cast hdpos)]
        exact_mod_cast le_trans hle1 (le_max_left _ _)
      · intro htf
        have hfil : commonColumns sc1 sc2 = pyDedup sc1.columns := by
          apply List.filter_eq_self.mpr
          intro c hc
          have hc1 : c ∈ sc1.columns := (pyDedup_mem _ _).mp hc
          have hc2 : c ∈ sc2.columns := by
            have := List.mem_toFinset.mpr hc1
            rw [htf] at this
            exact List.mem_toFinset.mp this
          exact decide_eq_true ((pyDedup_mem _ _).mpr hc2)
        have hlen : (pyDedup sc2.columns).length = (pyDedup sc1.columns).length := by
          rw [pyDedup_length_eq_card, pyDedup_length_eq_card, htf]
        have hl1pos : 0 < (pyDedup sc1.columns).length := by
          rw [← hfil]; exact hnpos
        simp only [hfil, hlen, max_self]
        rw [div_self]
        exact_mod_cast Nat.pos_iff_ne_zero.mp hl1pos

/-- C5 witness source: profiled `orders`. -/
def srcOrders : SourceDesc :=
  { id := "orders", name := "orders", type := SourceType.csv,
    schema_info := some { columns := ["customer_id", "amount"], row_count := 10,
                          unique_counts := [("customer_id", 10), ("amount", 9)] } }

/-- C5 witness source: profiled `customers`. -/
def srcCustomers : SourceDesc :=
  { id := "customers", name := "customers", type := SourceType.csv,
    schema_info := some { columns := ["customer_id", "name"], row_count := 5,
                          unique_counts := [("customer_id", 5), ("name", 5)] } }

/-- C5 witness source: unprofiled. -/
def srcBare : SourceDesc :=
  { id := "bare", name := "bare", type := SourceType.csv, schema_info := none }

/-- The relationship the detector emits for the witness pair. -/
def relOC : DataRelationship :=
  (pairRelationship srcOrders srcCustomers).getD
    { source1_id := "", source2_id := "", join_type := "", join_keys := [], confidence := 0 }

/-- C5 witness: the detector theorem applied at concrete sources — the
unprofiled pair is skipped and the emitted confidence lies in `[0, 1]`. -/
theorem C5_find_relationships_witness :
    pairRelationship srcBare srcCustomers = none
    ∧ 0 ≤ relOC.confidence ∧ relOC.confidence ≤ 1 := by
  have h := C5_find_relationships_spec [srcBare, srcOrders, srcCustomers]
  have hpair : pairRelationship srcOrders srcCustomers = some relOC := rfl
  have h4 := h.2.2.2 srcOrders srcCustomers _ _ relOC rfl rfl hpair
  exact ⟨h.2.1 srcBare srcCustomers (Or.inl rfl), h4.2.1, h4.2.2.1⟩

theorem uniquenessScore_nonneg (sc : SchemaDict) (f : String) : 0 ≤ uniquenessScore sc f :=
  div_nonneg (Nat.cast_nonneg _) (Nat.cast_nonneg _)

theorem minScore_nonneg (sc1 sc2 : SchemaDict) (f : String) : 0 ≤ minScore sc1 sc2 f :=
  le_min (uniquenessScore_nonneg _ _) (uniquenessScore_nonneg _ _)

theorem bestScan_spec (sc1 sc2 : SchemaDict) (l : List String) (acc : Option String × ℚ)
    (h0 : 0 ≤ acc.2)
    (hnone : acc.1 = none → acc.2 = 0)
    (hsome : ∀ f, acc.1 = some f → minScore sc1 sc2 f = acc.2)
    (hpos : ∀ f, acc.1 = some f → 0 < acc.2) :
    0 ≤ (bestScan sc1 sc2 l acc).2
    ∧ ((bestScan sc1 sc2 l acc).1 = none → (bestScan sc1 sc2 l acc).2 = 0)
    ∧ (∀ f, (bestScan sc1 sc2 l acc).1 = some f →
        minScore sc1 sc2 f = (bestScan sc1 sc2 l acc).2)
    ∧ (∀ f, (bestScan sc1 sc2 l acc).1 = some f → 0 < (bestScan sc1 sc2 l acc).2)
    ∧ acc.2 ≤ (bestScan sc1 sc2 l acc).2
    ∧ (∀ g ∈ l, minScore sc1 sc2 g ≤ (bestScan sc1 sc2 l acc).2)
    ∧ (∀ f, (bestScan sc1 sc2 l acc).1 = some f → acc.1 = some f ∨ f ∈ l) := by
  induction l generalizing acc with
  | nil =>
    refine ⟨h0, hnone, hsome, hpos, le_refl _, ?_, ?_⟩
    · intro g hg; cases hg
    · intro f hf; exact Or.inl hf
  | cons x xs ih =>
    by_cases hlt : acc.2 < minScore sc1 sc2 x
    · rw [bestScan, if_pos hlt]
      obtain ⟨a1, a2, a3, a4, a5, a6, a7⟩ := ih (some x, minScore sc1 sc2 x)
        (minScore_nonneg sc1 sc2 x)
        (fun h => Option.noConfusion h)
        (fun f hf => by cases Option.some.inj hf; rfl)
        (fun f hf => lt_of_le_of_lt h0 hlt)
      refine ⟨a1, a2, a3, a4, ?_, ?_, ?_⟩
      · exact le_trans (le_of_lt hlt) a5
      · intro g hg
        rcases List.mem_cons.mp hg with rfl | hg
        · exact a5
        · exact a6 g hg
      · intro f hf
        rcases a7 f hf with h | h
        · cases Option.some.inj h
          exact Or.inr (List.mem_cons_self _ _)
        · exact Or.inr (List.mem_cons_of_mem _ h)
    · rw [bestScan, if_neg hlt]
      obtain ⟨a1, a2, a3, a4, a5, a6, a7⟩ := ih acc h0 hnone hsome hpos
      refine ⟨a1, a2, a3, a4, a5, ?_, ?_⟩
      · intro g hg
        rcases List.mem_cons.mp hg with rfl | hg
        · exact le_trans (not_lt.mp hlt) a5
        · exact a6 g hg
      · intro f hf
        rcases a7 f hf with h | h
        · exact Or.inl h
        · exact Or.inr (List.mem_cons_of_mem _ h)

theorem scanPatterns_sound (ps common : List String) (f : String)
    (h : scanPatterns ps common = some f) :
    f ∈ common ∧ ∃ p ∈ ps, substrIn p (strLower f) = true := by
  induction ps with
  | nil => cases h
  | cons p ps ih =>
    rw [scanPatterns] at h
    cases hf : common.find? (fun g => substrIn p (strLower g)) with
    | some g =>
      rw [hf] at h
      cases Option.some.inj h
      have hpf : substrIn p (strLower f) = true := by
        have h2 := List.find?_some hf
        simpa using h2
      exact ⟨List.mem_of_find?_eq_some hf, p, List.mem_cons_self _ _, hpf⟩
    | none =>
      rw [hf] at h
      obtain ⟨hmem, q, hq, hsub⟩ := ih h
      exact ⟨hmem, q, List.mem_cons_of_mem _ hq, hsub⟩

/-- C6 (amended): a substring-priority hit (patterns `id`, `uuid`, `key`,
`code` in order, then iteration order of the intersection) always wins — in
particular `user_id` beats `name` whatever the uniqueness statistics; when no
common column matches any pattern, the selected key is a common column with
strictly positive and maximal score `min` over both sides of
`distinct_count / max(row_count, 1)`; and when every score is zero, no key is
selected at all (the loop never improves on its initial `(None, 0)`). -/
theorem C6_primary_key_amended (common : List String) (s1 s2 : SourceDesc)
    (sc1 sc2 : SchemaDict)
    (h1 : s1.schema_info = some sc1) (h2 : s2.schema_info = some sc2) :
    (∀ f, scanPatterns priorityPatterns common = some f →
        identifyPrimaryKey common s1 s2 = some f
        ∧ f ∈ common ∧ ∃ p ∈ priorityPatterns, substrIn p (strLower f) = true)
    ∧ ((∀ f ∈ common, f = "user_id" ∨ f = "name") → "user_id" ∈ common →
        identifyPrimaryKey common s1 s2 = some "user_id")
    ∧ (scanPatterns priorityPatterns common = none →
        (∀ f, identifyPrimaryKey common s1 s2 = some f →
            f ∈ common ∧ 0 < minScore sc1 sc2 f
            ∧ ∀ g ∈ common, minScore sc1 sc2 g ≤ minScore sc1 sc2 f)
        ∧ (identifyPrimaryKey common s1 s2 = none →
            ∀ g ∈ common, minScore sc1 sc2 g = 0)) := by
  refine ⟨?_, ?_, ?_⟩
  · intro f hscan
    refine ⟨by simp [identifyPrimaryKey, hscan], scanPatterns_sound _ _ _ hscan⟩
  · intro hmem hin
    have hpred : substrIn "id" (strLower "user_id") = true := by decide
    have hfind : common.find? (fun g => substrIn "id" (strLower g)) = some "user_id" := by
      cases hf : common.find? (fun g => substrIn "id" (strLower g)) with
      | none => exact absurd hpred (List.find?_eq_none.mp hf "user_id" hin)
      | some g =>
        have hg := List.find?_some hf
        rcases hmem g (List.mem_of_find?_eq_some hf) with rfl | rfl
        · rfl
        · exact absurd hg (by decide)
    have hscan : scanPatterns priorityPatterns common = some "user_id" := by
      simp [priorityPatterns, scanPatterns, hfind]
    simp [identifyPrimaryKey, hscan]
  · intro hscan
    have hid : identifyPrimaryKey common s1 s2 = bestByUniqueness common sc1 sc2 := by
      simp [identifyPrimaryKey, hscan, h1, h2]
    obtain ⟨b1, b2, b3, b4, b5, b6, b7⟩ := bestScan_spec sc1 sc2 common (none, 0)
      (le_refl 0) (fun _ => rfl) (fun f hf => Option.noConfusion hf)
      (fun f hf => Option.noConfusion hf)
    constructor
    · intro f hf
      rw [hid] at hf
      have hb : (bestScan sc1 sc2 common (none, 0)).1 = some f := hf
      have hfmem : f ∈ common := by
        rcases b7 f hb with h | h
        · exact Option.noConfusion h
        · exact h
      refine ⟨hfmem, ?_, ?_⟩
      · rw [b3 f hb]; exact b4 f hb
      · intro g hg
        rw [b3 f hb]; exact b6 g hg
    · intro hnone g hg
      rw [hid] at hnone
      have hz : (bestScan sc1 sc2 common (none, 0)).2 = 0 := b2 hnone
      have := b6 g hg
      rw [hz] at this
      exact le_antisymm this (minScore_nonneg _ _ _)

/-- C6 witness source: left side of the `user_id`/`name` instance. -/
def srcU1 : SourceDesc :=
  { id := "u1", name := "users_a", type := SourceType.csv,
    schema_info := some { columns := ["user_id", "name"], row_count := 3,
                          unique_counts := [("user_id", 3), ("name", 2)] } }

/-- C6 witness source: right side of the `user_id`/`name` instance. -/
def srcU2 : SourceDesc :=
  { id := "u2", name := "users_b", type := SourceType.json,
    schema_info := some { columns := ["user_id", "name"], row_count := 7,
                          unique_counts := [("user_id", 2), ("name", 7)] } }

/-- C6 witness: the amended key-selection theorem applied at the concrete
`user_id`/`name` intersection. -/
theorem C6_primary_key_witness :
    identifyPrimaryKey ["user_id", "name"] srcU1 srcU2 = some "user_id" :=
  (C6_primary_key_amended ["user_id", "name"] srcU1 srcU2 _ _ rfl rfl).2.1
    (by decide) (by decide)

/-- The schema dict of the zero-uniqueness counterexample sources. -/
def zeroSchema : SchemaDict :=
  { columns := ["name"], row_count := 0, unique_counts := [("name", 0)] }

/-- C6 counterexample source, left. -/
def srcZ1 : SourceDesc :=
  { id := "z1", name := "zero_a", type := SourceType.csv, schema_info := some zeroSchema }

/-- C6 counterexample source, right. -/
def srcZ2 : SourceDesc :=
  { id := "z2", name := "zero_b", type := SourceType.csv, schema_info := some zeroSchema }

/-- C6 counterexample: with common columns `{"name"}` no substring pattern
matches, every uniqueness score is `0`, and the code selects no key at all —
while the claim promises that the highest-score key (`"name"`) is selected. -/
theorem C6_zero_uniqueness_counterexample :
    scanPatterns priorityPatterns ["name"] = none
    ∧ minScore zeroSchema zeroSchema "name" = 0
    ∧ identifyPrimaryKey ["name"] srcZ1 srcZ2 = none := by
  have hscan : scanPatterns priorityPatterns ["name"] = none := by decide
  have hus : uniquenessScore zeroSchema "name" = ((0 : Nat) : ℚ) / ((1 : Nat) : ℚ) := rfl
  have hus0 : uniquenessScore zeroSchema "name" = 0 := by rw [hus]; norm_num
  have hmin0 : minScore zeroSchema zeroSchema "name" = 0 := by
    rw [minScore, hus0]; exact min_self 0
  have hnlt : ¬(((none : Option String), (0 : ℚ)).2 < minScore zeroSchema zeroSchema "name") := by
    rw [hmin0]; exact lt_irrefl 0
  have hbest : (bestScan zeroSchema zeroSchema ["name"] (none, 0)).1 = none := by
    rw [bestScan, if_neg hnlt, bestScan]
  refine ⟨hscan, hmin0, ?_⟩
  have hid : identifyPrimaryKey ["name"] srcZ1 srcZ2
      = bestByUniqueness ["name"] zeroSchema zeroSchema := by
    simp [identifyPrimaryKey, hscan, srcZ1, srcZ2]
  rw [hid, bestByUniqueness, hbest]

/-- C1 (amended): when a generative backend call raises (network failure or
timeout), returns a non-success status, or no backend is configured,
`recommend` returns exactly the rule-based result — but when a backend
returns a non-empty reply from which no JSON object is recoverable (no
opening or closing brace, or an unparsable slice), `recommend` returns the
empty object `{}` instead of falling back to the rule-based strategy. -/
theorem C1_llm_fallback_amended (env : LLMEnv) (sources : List SourceDesc)
    (req : BusinessRequirements) (patterns : DataPatterns) :
    generateRecommendations env sources req patterns
      = (match effectiveReply env with
         | none => ruleBasedJson sources req patterns
         | some t => parseLlmResponse env.jsonLoads t)
    ∧ (∀ t, findIdx lbrace t.toList = none →
        parseLlmResponse env.jsonLoads t = JsonVal.obj [])
    ∧ (∀ t, rfindIdx rbrace t.toList = none →
        parseLlmResponse env.jsonLoads t = JsonVal.obj [])
    ∧ (∀ t s e, findIdx lbrace t.toList = some s → rfindIdx rbrace t.toList = some e →
        env.jsonLoads (String.mk ((t.toList.drop s).take (e + 1 - s))) = none →
        parseLlmResponse env.jsonLoads t = JsonVal.obj []) := by
  refine ⟨?_, ?_, ?_, ?_⟩
  · rcases env with ⟨yk, yo, dk, dko, loads⟩
    have hD : ∀ yk2 yo2,
        (match tryDeepseek ⟨yk2, yo2, dk, dko, loads⟩ sources req patterns with
         | Except.ok v => v
         | Except.error _ => ruleBasedJson sources req patterns)
        = (match usableDeepseekReply ⟨yk2, yo2, dk, dko, loads⟩ with
           | none => ruleBasedJson sources req patterns
           | some t => parseLlmResponse loads t) := by
      intro yk2 yo2
      cases dk with
      | true =>
        cases dko with
        | raises m => simp [tryDeepseek, usableDeepseekReply]
        | httpFailure st => simp [tryDeepseek, usableDeepseekReply]
        | replies t => by_cases ht : t = "" <;> simp [tryDeepseek, usableDeepseekReply, ht]
      | false => simp [tryDeepseek, usableDeepseekReply]
    cases yk with
    | false =>
      simpa [generateRecommendations, tryBackends, effectiveReply] using hD false yo
    | true =>
      cases yo with
      | raises m => simp [generateRecommendations, tryBackends, effectiveReply]
      | httpFailure st =>
        simpa [generateRecommendations, tryBackends, effectiveReply]
          using hD true (CallOutcome.httpFailure st)
      | replies t =>
        by_cases ht : t = ""
        · simpa [generateRecommendations, tryBackends, effectiveReply, ht]
            using hD true (CallOutcome.replies t)
        · simp [generateRecommendations, tryBackends, effectiveReply, ht]
  · intro t hf
    have hf2 : findIdx lbrace t.data = none := hf
    cases hr : rfindIdx rbrace t.data <;> simp [parseLlmResponse, hf2, hr]
  · intro t hr
    have hr2 : rfindIdx rbrace t.data = none := hr
    cases hf : findIdx lbrace t.data <;> simp [parseLlmResponse, hf, hr2]
  · intro t s e hf hr hl
    have hf2 : findIdx lbrace t.data = some s := hf
    have hr2 : rfindIdx rbrace t.data = some e := hr
    have hl2 : env.jsonLoads { data := List.take (e + 1 - s) (List.drop s t.data) } = none := hl
    simp [parseLlmResponse, hf2, hr2, hl2]

/-- C1 witness requirements. -/
def req0 : BusinessRequirements :=
  { goal := "demo", target_metrics := [], update_frequency := UpdateFrequency.daily,
    expected_load := "low", data_retention := "30 days" }

/-- C1 witness data patterns. -/
def patterns0 : DataPatterns :=
  { has_temporal_data := false, temporal_columns := [], has_geographical_data := false,
    geographical_columns := [], total_estimated_rows := 0, data_types_distribution := [],
    suggested_partitioning := none }

/-- C1 counterexample environment: the first backend succeeds with a reply
that contains no JSON object. -/
def env0 : LLMEnv :=
  { yandexApiKey := true, yandexOutcome := CallOutcome.replies "no recommendations today",
    deepseekApiKey := false, deepseekOutcome := CallOutcome.raises "unused",
    jsonLoads := fun _ => none }

/-- C1 counterexample: on a reply from which no JSON object is recoverable,
`recommend` returns the empty object — not the rule-based result, whose
top-level object is non-empty. -/
theorem C1_llm_fallback_counterexample :
    (generateRecommendations env0 [] req0 patterns0).isEmptyObj = true
    ∧ (ruleBasedJson [] req0 patterns0).isEmptyObj = false :=
  ⟨rfl, rfl⟩

/-- C1 witness environment: no backend configured at all. -/
def envNoKeys : LLMEnv :=
  { yandexApiKey := false, yandexOutcome := CallOutcome.raises "unused",
    deepseekApiKey := false, deepseekOutcome := CallOutcome.raises "unused",
    jsonLoads := fun _ => none }

/-- C1 witness: the amended theorem applied at a concrete environment with no
configured backend, and at a concrete brace-free reply text. -/
theorem C1_llm_fallback_witness :
    generateRecommendations envNoKeys [] req0 patterns0 = ruleBasedJson [] req0 patterns0
    ∧ parseLlmResponse (fun _ => none) "plain text reply" = JsonVal.obj [] := by
  have h := C1_llm_fallback_amended envNoKeys [] req0 patterns0
  refine ⟨?_, h.2.1 "plain text reply" rfl⟩
  rw [h.1]
  rfl

end DEAgent
